import Mathlib

/-!
Shallow embedding of `openload/openload.py` (PySteamango): a thin HTTP API
client.  Python dicts holding query parameters become association lists with
Python `dict.update` semantics; JSON response envelopes become a `Json`
inductive; raised exceptions become the `Except` error channel; the HTTP
transport becomes an explicit function argument (the whole network exchange
per call is one function application).
-/

set_option autoImplicit false

namespace PySteamango

/-- JSON values, the decoded response bodies (`requests.get(...).json()`).
Numbers are modelled as integers, which covers all statuses the code
compares against. -/
inductive Json where
  | null
  | bool (b : Bool)
  | num (n : Int)
  | str (s : String)
  | arr (elems : List Json)
  | obj (fields : List (String × Json))

/-- A Python value that can appear in a query-parameter dict: `None`, a
string, a bool or an int.  Enough to cover every argument the operations
accept (ids, tickets, hashes, flags, limits). -/
inductive PyVal where
  | none
  | str (s : String)
  | bool (b : Bool)
  | int (n : Int)
deriving DecidableEq, Repr

/-- Python truthiness for the values of `PyVal` (`if value:` / `if not params:`). -/
def PyVal.truthy : PyVal → Bool
  | .none => false
  | .str s => !s.isEmpty
  | .bool b => b
  | .int n => n != 0

/-- Modelled from the spec: the exception classes imported from
`openload/api_exceptions.py` (a file of this repository that is not under
`src/`) are distinct error kinds, each carrying the response's `msg` value
(§4.3, §7 of the spec).  `keyError` and `typeError` are Python's built-in
`KeyError` / `TypeError`, raised by dict subscripting and by ordering a
non-number against an int; `notImplemented` is Python's built-in
`NotImplementedError`. -/
inductive ApiError where
  | badRequest (msg : Json)
  | permissionDenied (msg : Json)
  | fileNotFound (msg : Json)
  | unavailableForLegalReasons (msg : Json)
  | bandwidthUsageExceeded (msg : Json)
  | serverError (msg : Json)
  | keyError (key : String)
  | typeError
  | notImplemented

/-- Key lookup in a decoded JSON object.  Python's `json` decoder produces
dicts, whose keys are unique, so first-match lookup is dict lookup. -/
def jsonLookup (fields : List (String × Json)) (k : String) : Option Json :=
  match fields with
  | [] => Option.none
  | kv :: rest => if kv.1 = k then some kv.2 else jsonLookup rest k

/-- Pure lookup of a key in a JSON object (`none` on a non-object or a
missing key).  Used to state hypotheses about envelopes. -/
def Json.getKey (j : Json) (k : String) : Option Json :=
  match j with
  | .obj fields => jsonLookup fields k
  | _ => Option.none

/-- Python dict subscripting `j[k]`: `KeyError` on a missing key,
`TypeError` when the subscripted value is not a dict. -/
def Json.pyGet (j : Json) (k : String) : Except ApiError Json :=
  match j with
  | .obj fields =>
    match jsonLookup fields k with
    | some v => .ok v
    | Option.none => .error (.keyError k)
  | _ => .error .typeError

/-- A query-parameter dict: keys in insertion order, mapped to values. -/
abbrev Params := List (String × PyVal)

/-- Python `k in d` on a parameter dict. -/
def hasKey (d : Params) (k : String) : Bool :=
  match d with
  | [] => false
  | kv :: rest => if kv.1 = k then true else hasKey rest k

/-- Python dict assignment `d[k] = v`: overwrite in place when the key
exists (keeping its position), append otherwise. -/
def dictInsert (d : Params) (k : String) (v : PyVal) : Params :=
  if hasKey d k then
    d.map (fun kv => if kv.1 = k then (k, v) else kv)
  else d ++ [(k, v)]

/-- Python `d.update(kvs)`: insert the pairs of `kvs` left to right. -/
def dictUpdate (d : Params) (kvs : Params) : Params :=
  kvs.foldl (fun acc kv => dictInsert acc kv.1 kv.2) d

/-- Python dict lookup on a parameter dict (first matching key; a dict
built by `dictInsert`/`dictUpdate` from a duplicate-free literal never
holds duplicates). -/
def dictLookup (d : Params) (k : String) : Option PyVal :=
  match d with
  | [] => Option.none
  | kv :: rest => if kv.1 = k then some kv.2 else dictLookup rest k

/-- The ordered list of keys of a parameter dict. -/
def paramKeys (p : Params) : List String :=
  p.map Prod.fst

/-- One outgoing HTTP GET request: full URL plus query parameters. -/
structure Request where
  url : String
  params : Params

/-- The client: `self.login`, `self.key`, `self.api_url` as set by
`OpenLoad.__init__`. -/
structure OpenLoad where
  login : String
  key : String
  api_url : String

/-- Class attribute `api_base_url = 'https://api.openload.co/{api_version}/'`. -/
def OpenLoad.api_base_url : String := "https://api.openload.co/{api_version}/"

/-- Class attribute `api_version = '1'`. -/
def OpenLoad.api_version : String := "1"

/-- `OpenLoad.__init__(self, api_login, api_key)`: store the credentials and
format the base url (`self.api_base_url.format(api_version=self.api_version)`). -/
def OpenLoad.init (api_login api_key : String) : OpenLoad :=
  ⟨api_login, api_key,
    OpenLoad.api_base_url.replace "{api_version}" OpenLoad.api_version⟩

/-- `OpenLoad._check_status(response_json)`: read `status` and `msg`, then
raise the exception matching the status code, or return `None`.
A non-integer status: Python `==` against an int is `False` for any
non-number (so the five equality branches fall through), a bool is an int
(`True`/`False` are `1`/`0`, below 500, so no branch fires), and `>= 500`
on any other non-number raises `TypeError`. -/
def OpenLoad._check_status (response_json : Json) : Except ApiError Unit :=
  match response_json.pyGet "status" with
  | .error e => .error e
  | .ok statusJ =>
    match response_json.pyGet "msg" with
    | .error e => .error e
    | .ok msg =>
      match statusJ with
      | .num status =>
        if status = 400 then .error (.badRequest msg)
        else if status = 403 then .error (.permissionDenied msg)
        else if status = 404 then .error (.fileNotFound msg)
        else if status = 451 then .error (.unavailableForLegalReasons msg)
        else if status = 509 then .error (.bandwidthUsageExceeded msg)
        else if 500 ≤ status then .error (.serverError msg)
        else .ok ()
      | .bool _ => .ok ()
      | _ => .error .typeError

/-- `OpenLoad._process_response(response_json)`: run `_check_status`, then
return `response_json['result']`. -/
def OpenLoad._process_response (response_json : Json) : Except ApiError Json :=
  match OpenLoad._check_status response_json with
  | .error e => .error e
  | .ok _ =>
    match response_json.pyGet "result" with
    | .error e => .error e
    | .ok v => .ok v

/-- The parameter dict `_get` sends: `if not params: params = {}` (both
`None` and the falsy empty dict become `{}`, leaving any non-empty dict
unchanged), then `params.update({'login': self.login, 'key': self.key})`. -/
def OpenLoad.buildParams (self : OpenLoad) (params : Option Params) : Params :=
  let p : Params :=
    match params with
    | Option.none => []
    | some l => l
  dictUpdate p [("login", PyVal.str self.login), ("key", PyVal.str self.key)]

/-- `OpenLoad._get(self, url, params=None)`: merge the credentials into the
params, issue the GET (the `transport` argument stands for
`requests.get(...).json()`), and process the response envelope. -/
def OpenLoad._get (self : OpenLoad) (transport : Request → Json) (url : String)
    (params : Option Params) : Except ApiError Json :=
  OpenLoad._process_response
    (transport ⟨self.api_url ++ url, self.buildParams params⟩)

/-- A transport whose every response is the fixed envelope `r`. -/
def constTransport (r : Json) : Request → Json :=
  fun _ => r

/-- A POST transport (for the raw upload step) whose every response is the
fixed envelope `r`; it receives the upload URL value and the file path. -/
def constPost (r : Json) : Json → String → Json :=
  fun _ _ => r

/-- `OpenLoad.account_info(self)`: `self._get('account/info')`. -/
def OpenLoad.account_info (self : OpenLoad) (transport : Request → Json) :
    Except ApiError Json :=
  self._get transport "account/info" Option.none

/-- `OpenLoad.prepare_download(self, file_id)`:
`self._get('file/dlticket', params={'file': file_id})`. -/
def OpenLoad.prepare_download (self : OpenLoad) (transport : Request → Json)
    (file_id : PyVal) : Except ApiError Json :=
  self._get transport "file/dlticket" (some [("file", file_id)])

/-- The parameter dict built by `get_download_link`:
`params = {'ticket': ticket, 'file': file_id}`, then
`if captcha_response: params['captcha_response'] = captcha_response`. -/
def get_download_link_params (file_id ticket captcha_response : PyVal) : Params :=
  let params : Params := [("ticket", ticket), ("file", file_id)]
  if captcha_response.truthy then
    dictInsert params "captcha_response" captcha_response
  else params

/-- `OpenLoad.get_download_link(self, file_id, ticket, captcha_response=None)`:
build the params and `self._get('file/dl', params)`. -/
def OpenLoad.get_download_link (self : OpenLoad) (transport : Request → Json)
    (file_id ticket captcha_response : PyVal) : Except ApiError Json :=
  self._get transport "file/dl"
    (some (get_download_link_params file_id ticket captcha_response))

/-- `OpenLoad.file_info(self, file_id)`:
`self._get('file/info', params={'file': file_id})`. -/
def OpenLoad.file_info (self : OpenLoad) (transport : Request → Json)
    (file_id : PyVal) : Except ApiError Json :=
  self._get transport "file/info" (some [("file", file_id)])

/-- The parameter dict built by `upload_link`:
`{key: value for key, value in kwargs.items() if value}` — keep only the
truthy-valued keyword arguments, in order. -/
def upload_link_params (kwargs : Params) : Params :=
  kwargs.filter (fun kv => kv.2.truthy)

/-- `OpenLoad.upload_link(self, **kwargs)`: filter the falsy kwargs and
`self._get('file/ul', params=params)`. -/
def OpenLoad.upload_link (self : OpenLoad) (transport : Request → Json)
    (kwargs : Params) : Except ApiError Json :=
  self._get transport "file/ul" (some (upload_link_params kwargs))

/-- `OpenLoad.upload_file(self, file_path, **kwargs)`: call `upload_link`,
take `['url']` from its result, POST the file body to that url (the `post`
argument stands for `requests.post(upload_url, files=...).json()`), then
`self._check_status(response_json)` and `return response_json['result']`.
A raised exception at any step propagates (`Except` error). -/
def OpenLoad.upload_file (self : OpenLoad) (transport : Request → Json)
    (post : Json → String → Json) (file_path : String) (kwargs : Params) :
    Except ApiError Json :=
  match self.upload_link transport kwargs with
  | .error e => .error e
  | .ok upload_url_response_json =>
    match upload_url_response_json.pyGet "url" with
    | .error e => .error e
    | .ok upload_url =>
      let response_json := post upload_url file_path
      match OpenLoad._check_status response_json with
      | .error e => .error e
      | .ok _ =>
        match response_json.pyGet "result" with
        | .error e => .error e
        | .ok v => .ok v

/-- The parameter dict built by `remote_upload`: `params = {'url': remote_url}`,
then `params.update({key: value for key, value in kwargs.items() if value})`. -/
def remote_upload_params (remote_url : PyVal) (kwargs : Params) : Params :=
  dictUpdate [("url", remote_url)] (kwargs.filter (fun kv => kv.2.truthy))

/-- `OpenLoad.remote_upload(self, remote_url, **kwargs)`. -/
def OpenLoad.remote_upload (self : OpenLoad) (transport : Request → Json)
    (remote_url : PyVal) (kwargs : Params) : Except ApiError Json :=
  self._get transport "remotedl/add" (some (remote_upload_params remote_url kwargs))

/-- `OpenLoad.remote_upload_status(self, **kwargs)`: filter the falsy kwargs
and `self._get('remotedl/status', params=params)`. -/
def OpenLoad.remote_upload_status (self : OpenLoad) (transport : Request → Json)
    (kwargs : Params) : Except ApiError Json :=
  self._get transport "remotedl/status"
    (some (kwargs.filter (fun kv => kv.2.truthy)))

/-- The parameter dict built by `list_folder`:
`params = {'folder': folder_id} if folder_id else {}`. -/
def list_folder_params (folder_id : PyVal) : Params :=
  if folder_id.truthy then [("folder", folder_id)] else []

/-- `OpenLoad.list_folder(self, folder_id=None)`. -/
def OpenLoad.list_folder (self : OpenLoad) (transport : Request → Json)
    (folder_id : PyVal) : Except ApiError Json :=
  self._get transport "file/listfolder" (some (list_folder_params folder_id))

/-- `OpenLoad.convert_file(self, file_id)`:
`self._get('file/convert', params={'file': file_id})`. -/
def OpenLoad.convert_file (self : OpenLoad) (transport : Request → Json)
    (file_id : PyVal) : Except ApiError Json :=
  self._get transport "file/convert" (some [("file", file_id)])

/-- `OpenLoad.running_conversions(self, folder_id=None)`:
`params = {'folder': folder_id} if folder_id else {}` then
`self._get('file/runningconverts', params=params)`. -/
def OpenLoad.running_conversions (self : OpenLoad) (transport : Request → Json)
    (folder_id : PyVal) : Except ApiError Json :=
  self._get transport "file/runningconverts"
    (some (if folder_id.truthy then [("folder", folder_id)] else []))

/-- `OpenLoad.failed_conversions(self)`: `raise NotImplementedError`,
unconditionally, before any network use. -/
def OpenLoad.failed_conversions (self : OpenLoad) : Except ApiError Json :=
  .error .notImplemented

/-- `OpenLoad.splash_image(self, file_id)`:
`self._get('file/getsplash', params={'file': file_id})`. -/
def OpenLoad.splash_image (self : OpenLoad) (transport : Request → Json)
    (file_id : PyVal) : Except ApiError Json :=
  self._get transport "file/getsplash" (some [("file", file_id)])

/-- The error kind the spec's status table (§4.3) assigns to each classified
status code, carrying the message.  This definition follows the spec's
words, to be compared against the code's `_check_status`. -/
def specErrorFor (s : Int) (m : Json) : ApiError :=
  if s = 400 then .badRequest m
  else if s = 403 then .permissionDenied m
  else if s = 404 then .fileNotFound m
  else if s = 451 then .unavailableForLegalReasons m
  else if s = 509 then .bandwidthUsageExceeded m
  else .serverError m

/-!
## Lemmas about the embedded operations
-/

theorem Json.pyGet_of_getKey {r : Json} {k : String} {v : Json}
    (h : r.getKey k = some v) : r.pyGet k = .ok v := by
  cases r <;> simp [Json.getKey] at h <;> simp [Json.pyGet, h]

theorem Json.pyGet_of_getKey_none {fields : List (String × Json)} {k : String}
    (h : (Json.obj fields).getKey k = Option.none) :
    (Json.obj fields).pyGet k = .error (.keyError k) := by
  simp only [Json.getKey] at h
  simp [Json.pyGet, h]

/-- `_check_status` on an envelope with an integer status and a present
message reduces to the if-chain of the source's status comparisons. -/
theorem check_status_num {r : Json} {s : Int} {m : Json}
    (hs : r.getKey "status" = some (Json.num s))
    (hm : r.getKey "msg" = some m) :
    OpenLoad._check_status r =
      (if s = 400 then .error (.badRequest m)
       else if s = 403 then .error (.permissionDenied m)
       else if s = 404 then .error (.fileNotFound m)
       else if s = 451 then .error (.unavailableForLegalReasons m)
       else if s = 509 then .error (.bandwidthUsageExceeded m)
       else if 500 ≤ s then .error (.serverError m)
       else .ok ()) := by
  unfold OpenLoad._check_status
  rw [Json.pyGet_of_getKey hs, Json.pyGet_of_getKey hm]

/-- `_get` through a constant transport is `_process_response` on that
envelope. -/
theorem get_const (self : OpenLoad) (r : Json) (url : String)
    (params : Option Params) :
    self._get (constTransport r) url params = OpenLoad._process_response r := rfl

theorem process_response_of_check_error {r : Json} {e : ApiError}
    (h : OpenLoad._check_status r = .error e) :
    OpenLoad._process_response r = .error e := by
  unfold OpenLoad._process_response
  rw [h]

theorem process_response_of_check_ok {r : Json} {v : Json}
    (h : OpenLoad._check_status r = .ok ())
    (hv : r.getKey "result" = some v) :
    OpenLoad._process_response r = .ok v := by
  unfold OpenLoad._process_response
  rw [h, Json.pyGet_of_getKey hv]

theorem dictLookup_map_overwrite (d : Params) (k : String) (v : PyVal)
    (h : hasKey d k = true) :
    dictLookup (d.map (fun kv => if kv.1 = k then (k, v) else kv)) k = some v := by
  induction d with
  | nil => simp [hasKey] at h
  | cons kv rest ih =>
    by_cases hk : kv.1 = k
    · simp [dictLookup, hk]
    · have h' : hasKey rest k = true := by
        simpa [hasKey, hk] using h
      simp [dictLookup, hk, ih h']

theorem dictLookup_append_new (d : Params) (k : String) (v : PyVal)
    (h : hasKey d k = false) :
    dictLookup (d ++ [(k, v)]) k = some v := by
  induction d with
  | nil => simp [dictLookup]
  | cons kv rest ih =>
    have hk : ¬(kv.1 = k) := by
      intro hkk
      simp [hasKey, hkk] at h
    have h' : hasKey rest k = false := by
      simpa [hasKey, hk] using h
    simp [dictLookup, hk, ih h']

/-- Python dict assignment binds the assigned key to the assigned value. -/
theorem dictLookup_insert_self (d : Params) (k : String) (v : PyVal) :
    dictLookup (dictInsert d k v) k = some v := by
  unfold dictInsert
  by_cases h : hasKey d k = true
  · simp only [h, if_true]
    exact dictLookup_map_overwrite d k v h
  · rw [if_neg h]
    exact dictLookup_append_new d k v (by simpa using h)

theorem dictLookup_map_other (d : Params) (k k' : String) (v : PyVal)
    (hne : k' ≠ k) :
    dictLookup (d.map (fun kv => if kv.1 = k then (k, v) else kv)) k' =
      dictLookup d k' := by
  induction d with
  | nil => rfl
  | cons kv rest ih =>
    by_cases hk : kv.1 = k
    · simp [dictLookup, hk, Ne.symm hne, ih]
    · simp [dictLookup, hk, ih]

theorem dictLookup_append_other (d : Params) (k k' : String) (v : PyVal)
    (hne : k' ≠ k) :
    dictLookup (d ++ [(k, v)]) k' = dictLookup d k' := by
  induction d with
  | nil => simp [dictLookup, Ne.symm hne]
  | cons kv rest ih =>
    by_cases hk : kv.1 = k'
    · simp [dictLookup, hk]
    · simp [dictLookup, hk, ih]

/-- Python dict assignment leaves every other key's binding unchanged. -/
theorem dictLookup_insert_other (d : Params) (k k' : String) (v : PyVal)
    (hne : k' ≠ k) :
    dictLookup (dictInsert d k v) k' = dictLookup d k' := by
  unfold dictInsert
  by_cases h : hasKey d k = true
  · simp only [h, if_true]
    exact dictLookup_map_other d k k' v hne
  · rw [if_neg h]
    exact dictLookup_append_other d k k' v hne

/-- `_get`'s parameter dict is the caller's dict (empty when `None`) with
the two credential assignments applied, in order `login` then `key`. -/
theorem buildParams_eq (self : OpenLoad) (params : Option Params) :
    self.buildParams params =
      dictInsert (dictInsert (params.getD []) "login" (PyVal.str self.login))
        "key" (PyVal.str self.key) := by
  cases params <;> rfl

/-!
## The claims
-/

/-- C4: for every caller-supplied parameter mapping — including one that
already binds `login` or `key` — the outgoing parameters built by `_get`
bind `login` and `key` to the client's stored credentials, overwriting any
caller-supplied values under those names.  Every operation sends its
parameters through `_get`, so this covers every operation. -/
theorem credentials_always_win (self : OpenLoad) (params : Option Params) :
    dictLookup (self.buildParams params) "login" = some (PyVal.str self.login) ∧
    dictLookup (self.buildParams params) "key" = some (PyVal.str self.key) := by
  rw [buildParams_eq]
  constructor
  · rw [dictLookup_insert_other _ "key" "login" _ (by decide)]
    exact dictLookup_insert_self _ _ _
  · exact dictLookup_insert_self _ _ _

/-- C8: `failed_conversions` raises the unsupported-operation error
(`NotImplementedError`) for every client, unconditionally; it never
returns a value. -/
theorem failed_conversions_always_unsupported (self : OpenLoad) :
    self.failed_conversions = .error ApiError.notImplemented := rfl

/-- C1: for every response envelope whose `status` is 400, 403, 404, 451,
509, or `≥ 500` and not 509, the request primitive `_get` (through
`_process_response` / `_check_status`) raises the error kind the spec's
table assigns to that status, carrying the envelope's `msg`.  The
hypotheses say nothing about a `result` key, so the conclusion holds for
envelopes with any `result` or none at all — `result` is never read (the
witness uses an envelope with no `result` key). -/
theorem classified_status_raises (self : OpenLoad) (url : String)
    (params : Option Params) (r : Json) (s : Int) (m : Json)
    (hs : r.getKey "status" = some (Json.num s))
    (hm : r.getKey "msg" = some m)
    (hclass : s = 400 ∨ s = 403 ∨ s = 404 ∨ s = 451 ∨ s = 509 ∨
      (500 ≤ s ∧ s ≠ 509)) :
    self._get (constTransport r) url params = .error (specErrorFor s m) := by
  have hchk : OpenLoad._check_status r = .error (specErrorFor s m) := by
    rw [check_status_num hs hm]
    unfold specErrorFor
    rcases hclass with h | h | h | h | h | hge
    · subst h; norm_num
    · subst h; norm_num
    · subst h; norm_num
    · subst h; norm_num
    · subst h; norm_num
    · obtain ⟨h1, h2⟩ := hge
      have n400 : s ≠ 400 := by omega
      have n403 : s ≠ 403 := by omega
      have n404 : s ≠ 404 := by omega
      have n451 : s ≠ 451 := by omega
      simp [n400, n403, n404, n451, h2, h1]
  rw [get_const]
  exact process_response_of_check_error hchk

/-- Witness for C1: a status-400 envelope with no `result` key raises the
malformed-request error carrying the message. -/
theorem classified_status_raises_witness :
    (Json.obj [("status", Json.num 400), ("msg", Json.str "bad")]).getKey
        "status" = some (Json.num 400) ∧
    (Json.obj [("status", Json.num 400), ("msg", Json.str "bad")]).getKey
        "msg" = some (Json.str "bad") ∧
    ((400 : Int) = 400 ∨ (400 : Int) = 403 ∨ (400 : Int) = 404 ∨
      (400 : Int) = 451 ∨ (400 : Int) = 509 ∨
      (500 ≤ (400 : Int) ∧ (400 : Int) ≠ 509)) ∧
    (OpenLoad.init "l" "k")._get
        (constTransport (Json.obj [("status", Json.num 400), ("msg", Json.str "bad")]))
        "account/info" Option.none
      = .error (specErrorFor 400 (Json.str "bad")) :=
  ⟨rfl, rfl, Or.inl rfl,
    classified_status_raises (OpenLoad.init "l" "k") "account/info" Option.none
      (Json.obj [("status", Json.num 400), ("msg", Json.str "bad")])
      400 (Json.str "bad") rfl rfl (Or.inl rfl)⟩

/-- C2: for every response envelope whose `status` is 200 (with the `msg`
and `result` fields the Envelope data model guarantees), the request
primitive raises no error and returns exactly the envelope's `result`
field, unmodified. -/
theorem status_200_returns_result (self : OpenLoad) (url : String)
    (params : Option Params) (r : Json) (m v : Json)
    (hs : r.getKey "status" = some (Json.num 200))
    (hm : r.getKey "msg" = some m)
    (hv : r.getKey "result" = some v) :
    self._get (constTransport r) url params = .ok v := by
  have hchk : OpenLoad._check_status r = .ok () := by
    rw [check_status_num hs hm]
    norm_num
  rw [get_const]
  exact process_response_of_check_ok hchk hv

/-- Witness for C2: a status-200 envelope comes back as its `result`. -/
theorem status_200_returns_result_witness :
    (Json.obj [("status", Json.num 200), ("msg", Json.str "ok"),
        ("result", Json.str "payload")]).getKey "status" = some (Json.num 200) ∧
    (Json.obj [("status", Json.num 200), ("msg", Json.str "ok"),
        ("result", Json.str "payload")]).getKey "msg" = some (Json.str "ok") ∧
    (Json.obj [("status", Json.num 200), ("msg", Json.str "ok"),
        ("result", Json.str "payload")]).getKey "result" = some (Json.str "payload") ∧
    (OpenLoad.init "l" "k")._get
        (constTransport (Json.obj [("status", Json.num 200), ("msg", Json.str "ok"),
          ("result", Json.str "payload")]))
        "account/info" Option.none
      = .ok (Json.str "payload") :=
  ⟨rfl, rfl, rfl,
    status_200_returns_result (OpenLoad.init "l" "k") "account/info" Option.none
      (Json.obj [("status", Json.num 200), ("msg", Json.str "ok"),
        ("result", Json.str "payload")])
      (Json.str "ok") (Json.str "payload") rfl rfl rfl⟩

/-- Counterexample to C3 as stated: an envelope with the unclassified
status 201 and no `result` key makes the request primitive raise a
key-lookup error on `result` — it is not true that no error is raised and
the caller receives an absent `result`. -/
theorem unclassified_missing_result_raises :
    (OpenLoad.init "l" "k")._get
        (constTransport (Json.obj [("status", Json.num 201), ("msg", Json.str "m")]))
        "account/info" Option.none
      = .error (ApiError.keyError "result") := rfl

/-- C3 (amended): for every response envelope whose `status` is an integer
that is not 200, not one of 400/403/404/451/509, and below 500, the
status classification raises nothing and the request primitive returns
whatever `result` field is present in the envelope (possibly null or
empty); when the `result` key is absent it fails with a key-lookup error
on `result` (see the counterexample). -/
theorem unclassified_status_passthrough (self : OpenLoad) (url : String)
    (params : Option Params) (r : Json) (s : Int) (m v : Json)
    (hs : r.getKey "status" = some (Json.num s))
    (hm : r.getKey "msg" = some m)
    (hv : r.getKey "result" = some v)
    (h200 : s ≠ 200) (h400 : s ≠ 400) (h403 : s ≠ 403) (h404 : s ≠ 404)
    (h451 : s ≠ 451) (h509 : s ≠ 509) (hlt : s < 500) :
    OpenLoad._check_status r = .ok () ∧
    self._get (constTransport r) url params = .ok v := by
  have hchk : OpenLoad._check_status r = .ok () := by
    rw [check_status_num hs hm]
    have hge : ¬(500 ≤ s) := by omega
    simp [h400, h403, h404, h451, h509, hge]
  refine ⟨hchk, ?_⟩
  rw [get_const]
  exact process_response_of_check_ok hchk hv

/-- Witness for the amended C3: a status-201 envelope with a present
`result` passes through with no error. -/
theorem unclassified_status_passthrough_witness :
    (Json.obj [("status", Json.num 201), ("msg", Json.str "m"),
        ("result", Json.null)]).getKey "status" = some (Json.num 201) ∧
    (Json.obj [("status", Json.num 201), ("msg", Json.str "m"),
        ("result", Json.null)]).getKey "msg" = some (Json.str "m") ∧
    (Json.obj [("status", Json.num 201), ("msg", Json.str "m"),
        ("result", Json.null)]).getKey "result" = some Json.null ∧
    (201 : Int) ≠ 200 ∧ (201 : Int) ≠ 400 ∧ (201 : Int) ≠ 403 ∧
    (201 : Int) ≠ 404 ∧ (201 : Int) ≠ 451 ∧ (201 : Int) ≠ 509 ∧
    (201 : Int) < 500 ∧
    (OpenLoad._check_status (Json.obj [("status", Json.num 201), ("msg", Json.str "m"),
        ("result", Json.null)]) = .ok () ∧
      (OpenLoad.init "l" "k")._get
          (constTransport (Json.obj [("status", Json.num 201), ("msg", Json.str "m"),
            ("result", Json.null)]))
          "account/info" Option.none
        = .ok Json.null) :=
  ⟨rfl, rfl, rfl, by decide, by decide, by decide, by decide, by decide,
    by decide, by decide,
    unclassified_status_passthrough (OpenLoad.init "l" "k") "account/info"
      Option.none
      (Json.obj [("status", Json.num 201), ("msg", Json.str "m"),
        ("result", Json.null)])
      201 (Json.str "m") Json.null rfl rfl rfl
      (by decide) (by decide) (by decide) (by decide) (by decide) (by decide)
      (by decide)⟩

theorem mem_paramKeys_of_mem {k : String} {v : PyVal} {l : Params}
    (h : (k, v) ∈ l) : k ∈ paramKeys l :=
  List.mem_map.mpr ⟨(k, v), h, rfl⟩

theorem mem_paramKeys_filter {x : String} {p : String × PyVal → Bool} {l : Params}
    (h : x ∈ paramKeys (l.filter p)) : x ∈ paramKeys l := by
  simp only [paramKeys, List.mem_map] at h ⊢
  obtain ⟨kv, hkv, hfst⟩ := h
  exact ⟨kv, List.mem_of_mem_filter hkv, hfst⟩

/-- Overwriting a key in place does not change the key list. -/
theorem paramKeys_map_overwrite (d : Params) (k : String) (v : PyVal) :
    paramKeys (d.map (fun kv => if kv.1 = k then (k, v) else kv)) =
      paramKeys d := by
  induction d with
  | nil => rfl
  | cons kv rest ih =>
    by_cases hk : kv.1 = k
    · simp only [paramKeys, List.map_cons] at ih ⊢
      rw [if_pos hk, ih]
      simp [hk]
    · simp only [paramKeys, List.map_cons] at ih ⊢
      rw [if_neg hk, ih]

/-- A key of `dictInsert d k v` is a key of `d` or is `k`. -/
theorem mem_paramKeys_insert {x : String} {d : Params} {k : String} {v : PyVal}
    (h : x ∈ paramKeys (dictInsert d k v)) : x ∈ paramKeys d ∨ x = k := by
  unfold dictInsert at h
  by_cases hh : hasKey d k = true
  · rw [if_pos hh, paramKeys_map_overwrite] at h
    exact Or.inl h
  · rw [if_neg hh] at h
    simp only [paramKeys, List.map_append] at h
    rcases List.mem_append.mp h with h1 | h1
    · exact Or.inl h1
    · right
      simpa using h1

/-- A key foreign to the caller's dict and different from the credential
names is not a key of the dict `_get` sends. -/
theorem not_mem_buildParams_keys {x : String} (self : OpenLoad) (q : Params)
    (hx : x ∉ paramKeys q) (hl : x ≠ "login") (hk : x ≠ "key") :
    x ∉ paramKeys (self.buildParams (some q)) := by
  rw [buildParams_eq]
  intro h
  rcases mem_paramKeys_insert h with h1 | h1
  · rcases mem_paramKeys_insert h1 with h2 | h2
    · exact hx (by simpa using h2)
    · exact hl h2
  · exact hk h1

/-- The keyword-argument filter of `upload_link` drops every falsy-valued
argument: its key does not occur among the filtered parameters. -/
theorem falsy_key_not_sent (k : String) (v : PyVal)
    (hfalse : v.truthy = false) :
    ∀ kwargs : Params, (paramKeys kwargs).Nodup → (k, v) ∈ kwargs →
      k ∉ paramKeys (upload_link_params kwargs) := by
  intro kwargs
  induction kwargs with
  | nil =>
    intro _ hmem
    simp at hmem
  | cons kv rest ih =>
    intro hnodup hmem hk
    simp only [paramKeys, List.map_cons, List.nodup_cons] at hnodup
    obtain ⟨hhead, hrest⟩ := hnodup
    rcases List.mem_cons.mp hmem with heq | hmemr
    · rw [← heq] at hhead hk
      rw [upload_link_params, List.filter_cons] at hk
      simp only [hfalse] at hk
      simp only [Bool.false_eq_true, if_false] at hk
      exact hhead (mem_paramKeys_filter hk)
    · rw [upload_link_params, List.filter_cons] at hk
      by_cases ht : kv.2.truthy
      · simp only [ht, if_true] at hk
        simp only [paramKeys, List.map_cons, List.mem_cons] at hk
        rcases hk with hk1 | hk2
        · exact hhead (hk1 ▸ mem_paramKeys_of_mem hmemr)
        · exact ih hrest hmemr hk2
      · simp only [ht] at hk
        simp only [Bool.false_eq_true, if_false] at hk
        exact ih hrest hmemr hk

/-- C5: optional arguments whose values are absent or empty are never
included in the outgoing query parameters, and an omitted optional
argument yields a strict subset of the parameter keys produced when it is
supplied non-empty.  Instantiated on the cited operations: for
`upload_link`, a falsy keyword argument's key is absent both from the
filtered parameters and from the full outgoing dict (for argument names
distinct from the credential names, which `_get` always adds); for
`list_folder`, omitting `folder_id` sends exactly `login, key` while a
truthy `folder_id` sends exactly `folder, login, key` — a strict
superset. -/
theorem optional_params_filtered (self : OpenLoad) (kwargs : Params)
    (k : String) (v : PyVal) (fid : PyVal)
    (hnodup : (paramKeys kwargs).Nodup)
    (hmem : (k, v) ∈ kwargs) (hempty : v.truthy = false)
    (hlogin : k ≠ "login") (hkey : k ≠ "key")
    (hfid : fid.truthy = true) :
    k ∉ paramKeys (upload_link_params kwargs) ∧
    k ∉ paramKeys (self.buildParams (some (upload_link_params kwargs))) ∧
    paramKeys (self.buildParams (some (list_folder_params PyVal.none))) =
      ["login", "key"] ∧
    paramKeys (self.buildParams (some (list_folder_params fid))) =
      ["folder", "login", "key"] ∧
    (∀ x, x ∈ paramKeys (self.buildParams (some (list_folder_params PyVal.none))) →
      x ∈ paramKeys (self.buildParams (some (list_folder_params fid)))) ∧
    "folder" ∈ paramKeys (self.buildParams (some (list_folder_params fid))) ∧
    "folder" ∉ paramKeys (self.buildParams (some (list_folder_params PyVal.none))) := by
  have hfilter : k ∉ paramKeys (upload_link_params kwargs) :=
    falsy_key_not_sent k v hempty kwargs hnodup hmem
  have hfolder : list_folder_params fid = [("folder", fid)] := by
    unfold list_folder_params
    rw [hfid]
    rfl
  have hnone : paramKeys (self.buildParams (some (list_folder_params PyVal.none))) =
      ["login", "key"] := rfl
  have hsome : paramKeys (self.buildParams (some (list_folder_params fid))) =
      ["folder", "login", "key"] := by
    rw [hfolder]
    rfl
  refine ⟨hfilter, not_mem_buildParams_keys self _ hfilter hlogin hkey,
    hnone, hsome, ?_, ?_, ?_⟩
  · intro x hx
    rw [hnone] at hx
    rw [hsome]
    simp only [List.mem_cons, List.not_mem_nil, or_false] at hx
    rcases hx with rfl | rfl
    · simp
    · simp
  · rw [hsome]
    simp
  · rw [hnone]
    decide

/-- Witness for C5: an empty-string `sha1` keyword argument is dropped by
`upload_link`, and `list_folder` omitting vs. supplying a folder id sends
a strict subset of keys. -/
theorem optional_params_filtered_witness :
    (paramKeys [("sha1", PyVal.str "")]).Nodup ∧
    ("sha1", PyVal.str "") ∈ ([("sha1", PyVal.str "")] : Params) ∧
    (PyVal.str "").truthy = false ∧
    "sha1" ≠ "login" ∧ "sha1" ≠ "key" ∧
    (PyVal.str "folder7").truthy = true ∧
    ("sha1" ∉ paramKeys (upload_link_params [("sha1", PyVal.str "")]) ∧
      "sha1" ∉ paramKeys ((OpenLoad.init "l" "k").buildParams
        (some (upload_link_params [("sha1", PyVal.str "")]))) ∧
      paramKeys ((OpenLoad.init "l" "k").buildParams
        (some (list_folder_params PyVal.none))) = ["login", "key"] ∧
      paramKeys ((OpenLoad.init "l" "k").buildParams
        (some (list_folder_params (PyVal.str "folder7")))) =
          ["folder", "login", "key"] ∧
      (∀ x, x ∈ paramKeys ((OpenLoad.init "l" "k").buildParams
          (some (list_folder_params PyVal.none))) →
        x ∈ paramKeys ((OpenLoad.init "l" "k").buildParams
          (some (list_folder_params (PyVal.str "folder7"))))) ∧
      "folder" ∈ paramKeys ((OpenLoad.init "l" "k").buildParams
        (some (list_folder_params (PyVal.str "folder7")))) ∧
      "folder" ∉ paramKeys ((OpenLoad.init "l" "k").buildParams
        (some (list_folder_params PyVal.none)))) :=
  ⟨by decide, by decide, by decide, by decide, by decide, by decide,
    optional_params_filtered (OpenLoad.init "l" "k")
      [("sha1", PyVal.str "")] "sha1" (PyVal.str "") (PyVal.str "folder7")
      (by decide) (by decide) (by decide) (by decide) (by decide) (by decide)⟩

/-- C6: `get_download_link` with a file id and a ticket and no captcha
response builds exactly the two base parameters, `ticket` and `file`;
supplying a (truthy) captcha response adds exactly one more parameter,
`captcha_response`, and nothing else. -/
theorem get_download_link_param_shape (file_id ticket captcha : PyVal)
    (hc : captcha.truthy = true) :
    get_download_link_params file_id ticket PyVal.none =
      [("ticket", ticket), ("file", file_id)] ∧
    get_download_link_params file_id ticket captcha =
      [("ticket", ticket), ("file", file_id), ("captcha_response", captcha)] := by
  constructor
  · rfl
  · unfold get_download_link_params
    rw [hc]
    rfl

/-- Witness for C6 at the spec's scenario inputs. -/
theorem get_download_link_param_shape_witness :
    (PyVal.str "captcha-solution").truthy = true ∧
    (get_download_link_params (PyVal.str "TJNMUk2hnYs") (PyVal.str "abc123")
        PyVal.none =
      [("ticket", PyVal.str "abc123"), ("file", PyVal.str "TJNMUk2hnYs")] ∧
    get_download_link_params (PyVal.str "TJNMUk2hnYs") (PyVal.str "abc123")
        (PyVal.str "captcha-solution") =
      [("ticket", PyVal.str "abc123"), ("file", PyVal.str "TJNMUk2hnYs"),
        ("captcha_response", PyVal.str "captcha-solution")]) :=
  ⟨by decide,
    get_download_link_param_shape (PyVal.str "TJNMUk2hnYs") (PyVal.str "abc123")
      (PyVal.str "captcha-solution") (by decide)⟩

/-- C7: in `upload_file`, when step 1 (`upload_link`) raises, the whole
operation raises that same error — for every POST transport, so the POST
is never attempted; when step 1 succeeds and yields an upload URL, the
operation equals `_process_response` of the POST response: the POST
response goes through the same status classification (`_check_status`) as
any other envelope and its `result` field is returned. -/
theorem upload_file_handoff (self : OpenLoad) (transport : Request → Json)
    (post : Json → String → Json) (file_path : String) (kwargs : Params)
    (e : ApiError) (j u : Json) :
    (self.upload_link transport kwargs = .error e →
      self.upload_file transport post file_path kwargs = .error e) ∧
    (self.upload_link transport kwargs = .ok j → j.getKey "url" = some u →
      self.upload_file transport post file_path kwargs =
        OpenLoad._process_response (post u file_path)) := by
  constructor
  · intro h
    unfold OpenLoad.upload_file
    rw [h]
  · intro h hu
    unfold OpenLoad.upload_file
    rw [h]
    simp only [Json.pyGet_of_getKey hu]
    rfl

/-- Witness for C7: step 1 answered with a status-403 envelope propagates
the permission error whatever the POST would answer; step 1 answered with
a good envelope holding an upload URL makes the operation return the
classified `result` of the POST response. -/
theorem upload_file_handoff_witness :
    ((OpenLoad.init "l" "k").upload_link
        (constTransport (Json.obj [("status", Json.num 403), ("msg", Json.str "no")]))
        [] = .error (ApiError.permissionDenied (Json.str "no")) ∧
      (OpenLoad.init "l" "k").upload_file
        (constTransport (Json.obj [("status", Json.num 403), ("msg", Json.str "no")]))
        (constPost (Json.obj [("status", Json.num 200), ("msg", Json.str "ok"),
          ("result", Json.str "uploaded")]))
        "/tmp/f.bin" [] = .error (ApiError.permissionDenied (Json.str "no"))) ∧
    ((OpenLoad.init "l" "k").upload_link
        (constTransport (Json.obj [("status", Json.num 200), ("msg", Json.str "ok"),
          ("result", Json.obj [("url", Json.str "https://upload.example/u")])]))
        [] = .ok (Json.obj [("url", Json.str "https://upload.example/u")]) ∧
      (Json.obj [("url", Json.str "https://upload.example/u")]).getKey "url" =
        some (Json.str "https://upload.example/u") ∧
      (OpenLoad.init "l" "k").upload_file
        (constTransport (Json.obj [("status", Json.num 200), ("msg", Json.str "ok"),
          ("result", Json.obj [("url", Json.str "https://upload.example/u")])]))
        (constPost (Json.obj [("status", Json.num 200), ("msg", Json.str "ok"),
          ("result", Json.str "uploaded")]))
        "/tmp/f.bin" [] =
        OpenLoad._process_response
          (constPost (Json.obj [("status", Json.num 200), ("msg", Json.str "ok"),
              ("result", Json.str "uploaded")])
            (Json.str "https://upload.example/u") "/tmp/f.bin")) :=
  ⟨⟨rfl,
    (upload_file_handoff (OpenLoad.init "l" "k")
      (constTransport (Json.obj [("status", Json.num 403), ("msg", Json.str "no")]))
      (constPost (Json.obj [("status", Json.num 200), ("msg", Json.str "ok"),
        ("result", Json.str "uploaded")]))
      "/tmp/f.bin" [] (ApiError.permissionDenied (Json.str "no"))
      Json.null Json.null).1 rfl⟩,
   ⟨rfl, rfl,
    (upload_file_handoff (OpenLoad.init "l" "k")
      (constTransport (Json.obj [("status", Json.num 200), ("msg", Json.str "ok"),
        ("result", Json.obj [("url", Json.str "https://upload.example/u")])]))
      (constPost (Json.obj [("status", Json.num 200), ("msg", Json.str "ok"),
        ("result", Json.str "uploaded")]))
      "/tmp/f.bin" [] ApiError.typeError
      (Json.obj [("url", Json.str "https://upload.example/u")])
      (Json.str "https://upload.example/u")).2 rfl rfl⟩⟩

/-- C10: `_process_response` reads both the `status` and the `msg` key of
the envelope before any status comparison: an envelope lacking `status`
fails with a key-lookup error on `status`, and an envelope with a
`status` — even 200 — but no `msg` fails with a key-lookup error on
`msg`, instead of returning the `result`. -/
theorem process_response_requires_keys (fields : List (String × Json)) (s : Json) :
    ((Json.obj fields).getKey "status" = Option.none →
      OpenLoad._process_response (Json.obj fields) =
        .error (.keyError "status")) ∧
    ((Json.obj fields).getKey "status" = some s →
      (Json.obj fields).getKey "msg" = Option.none →
      OpenLoad._process_response (Json.obj fields) =
        .error (.keyError "msg")) := by
  constructor
  · intro h
    have hp : (Json.obj fields).pyGet "status" = .error (.keyError "status") :=
      Json.pyGet_of_getKey_none h
    unfold OpenLoad._process_response OpenLoad._check_status
    rw [hp]
  · intro h1 h2
    have e1 := Json.pyGet_of_getKey h1
    have e2 : (Json.obj fields).pyGet "msg" = .error (.keyError "msg") :=
      Json.pyGet_of_getKey_none h2
    unfold OpenLoad._process_response OpenLoad._check_status
    rw [e1, e2]

/-- Witness for C10: one envelope with no `status`, and one with status 200
and a well-formed `result` but no `msg` — both fail on the key lookup. -/
theorem process_response_requires_keys_witness :
    (Json.obj [("msg", Json.str "m")]).getKey "status" = Option.none ∧
    OpenLoad._process_response (Json.obj [("msg", Json.str "m")]) =
      .error (.keyError "status") ∧
    (Json.obj [("status", Json.num 200), ("result", Json.str "r")]).getKey
      "status" = some (Json.num 200) ∧
    (Json.obj [("status", Json.num 200), ("result", Json.str "r")]).getKey
      "msg" = Option.none ∧
    OpenLoad._process_response
      (Json.obj [("status", Json.num 200), ("result", Json.str "r")]) =
        .error (.keyError "msg") :=
  ⟨rfl,
    (process_response_requires_keys [("msg", Json.str "m")] (Json.num 200)).1 rfl,
    rfl, rfl,
    (process_response_requires_keys
      [("status", Json.num 200), ("result", Json.str "r")] (Json.num 200)).2
      rfl rfl⟩

end PySteamango
